import Mathlib

/-!
Verification of the quiz generator core (src/utils.py and src/app.py).

The external chat-completion client and the pydantic JSON parsing are
external collaborators: one call of send-plus-parse for a given prompt is
modelled as an oracle `invoke : String → Nat → Except String α` taking the
prompt text and the attempt index, returning either a failure description
(transport failure or malformed/mis-shaped JSON) or the parsed response
object.  Everything downstream of the oracle — validation, repair, the
bounded retry loop, session management, and grading — is translated
directly from the Python source.
-/

namespace Quiz

/-! ## Data model (pydantic models of src/utils.py) -/

/-- `MCQQuestion` pydantic model: question text, list of options,
correct answer (src/utils.py lines 16-19). -/
structure MCQQuestion where
  question : String
  options : List String
  correct_answer : String
deriving Repr, DecidableEq

/-- `FillBlankQuestion` pydantic model: question text with a blank marker
and the answer (src/utils.py lines 28-30). -/
structure FillBlankQuestion where
  question : String
  answer : String
deriving Repr, DecidableEq

/-! ## Python string primitives used by the source

`containsSub pat s` is Python's `pat in s` (substring containment) and
`pyReplace pat repl s` is Python's `s.replace(pat, repl)` (replace every
non-overlapping occurrence, scanning left to right), both on character
lists.  `pyReplaceGo` carries fuel equal to the length of the scanned
list so that the recursion is structural. -/

/-- Substring containment, Python's `pat in s`. -/
def containsSub (pat : List Char) : List Char → Bool
  | [] => decide (pat = [])
  | c :: rest => decide ((c :: rest).take pat.length = pat) || containsSub pat rest

/-- One fuel-indexed step of Python's `str.replace`: when the pattern is
non-empty and matches at the head, emit the replacement and skip the
pattern; otherwise keep one character and continue. -/
def pyReplaceGo (pat repl : List Char) : Nat → List Char → List Char
  | 0, s => s
  | _ + 1, [] => []
  | fuel + 1, c :: rest =>
    if pat ≠ [] ∧ (c :: rest).take pat.length = pat then
      repl ++ pyReplaceGo pat repl fuel ((c :: rest).drop pat.length)
    else
      c :: pyReplaceGo pat repl fuel rest

/-- Python's `s.replace(pat, repl)` on character lists. -/
def pyReplace (pat repl s : List Char) : List Char :=
  pyReplaceGo pat repl s.length s

/-- The five-underscore blank marker required by validation. -/
def blank5 : List Char := ['_', '_', '_', '_', '_']

/-- The shorter three-underscore marker accepted for repair. -/
def blank3 : List Char := ['_', '_', '_']

/-- Python `"_____" in s`. -/
def hasBlank (s : String) : Bool := containsSub blank5 s.data

/-- Python `"___" in s` (only used to state the repair law; the source
performs the replace unconditionally). -/
def hasShort (s : String) : Bool := containsSub blank3 s.data

/-- Python `s.replace("___", "_____")`. -/
def repairStr (s : String) : String := String.mk (pyReplace blank3 blank5 s.data)

/-- Python `s.strip()`: drop whitespace from both ends. -/
def pyStrip (s : List Char) : List Char :=
  ((s.dropWhile Char.isWhitespace).reverse.dropWhile Char.isWhitespace).reverse

/-- Python `s.strip().lower()`, the normalisation used by
fill-in-the-blank grading (src/app.py line 71). -/
def pyNorm (s : String) : List Char :=
  (pyStrip s.data).map Char.toLower

/-! ## Validation (the try-block bodies of src/utils.py) -/

/-- The post-parse checks of `generate_mcq` (src/utils.py lines 93-98):
empty question, wrong option count or empty correct answer raise
`Invalid question format`; a correct answer outside the options raises
`Correct answer not in options`; otherwise the parsed response is
returned unchanged. -/
def validate_mcq (p : MCQQuestion) : Except String MCQQuestion :=
  if p.question.isEmpty || decide (p.options.length ≠ 4) || p.correct_answer.isEmpty then
    Except.error "Invalid question format"
  else if decide (p.correct_answer ∉ p.options) then
    Except.error "Correct answer not in options"
  else
    Except.ok p

/-- The post-parse checks of `generate_fill_blank` (src/utils.py lines
128-133): empty question or answer fails; if the five-underscore marker
is missing, `___` is replaced by `_____` once and the check is redone;
if still missing the attempt fails, otherwise the (possibly repaired)
response is returned. -/
def validate_fill (p : FillBlankQuestion) : Except String FillBlankQuestion :=
  if p.question.isEmpty || p.answer.isEmpty then
    Except.error "Invalid question format"
  else if !hasBlank p.question then
    if !hasBlank (repairStr p.question) then
      Except.error "Question missing blank marker"
    else
      Except.ok ⟨repairStr p.question, p.answer⟩
  else
    Except.ok p

/-! ## Bounded retry loop (src/utils.py lines 87-102 and 122-139)

`retryGo step wrap remaining attempt` is the `for attempt in
range(max_attempts)` loop: `step attempt` is one full
send-parse-validate cycle, a success returns immediately, a failure on
`attempt == max_attempts - 1` raises the wrapped terminal error, and any
earlier failure is swallowed and the loop continues.  The second
component counts the attempts actually performed.  The `remaining = 0`
base case is the loop running out of iterations without returning; it is
unreachable when the loop is entered with `remaining = max_attempts`. -/

def max_attempts : Nat := 3

def retryGo (step : Nat → Except String α) (wrap : String → String) :
    Nat → Nat → Except String α × Nat
  | 0, attempt => (Except.error (wrap ""), attempt)
  | remaining + 1, attempt =>
    match step attempt with
    | Except.ok a => (Except.ok a, attempt + 1)
    | Except.error e =>
      if attempt = max_attempts - 1 then
        (Except.error (wrap e), attempt + 1)
      else
        retryGo step wrap remaining (attempt + 1)

/-- Prompt rendered by `generate_mcq` (src/utils.py lines 69-85).  The
template's full instruction text is user-facing prose irrelevant to the
contract; what matters is that the rendered prompt is a pure function of
topic and difficulty, hence identical across the retry attempts. -/
def mcq_prompt (topic difficulty : String) : String :=
  "Generate a " ++ difficulty ++ " multiple-choice question about " ++ topic

/-- Prompt rendered by `generate_fill_blank` (src/utils.py lines 106-120). -/
def fill_prompt (topic difficulty : String) : String :=
  "Generate a " ++ difficulty ++ " fill-in-the-blank question about " ++ topic

/-- One attempt of `generate_mcq`: send the prompt, parse (both inside
the oracle), then validate; a transport/parse failure propagates. -/
def mcq_attempt (invoke : String → Nat → Except String MCQQuestion)
    (prompt : String) (i : Nat) : Except String MCQQuestion :=
  match invoke prompt i with
  | Except.error e => Except.error e
  | Except.ok p => validate_mcq p

/-- One attempt of `generate_fill_blank`. -/
def fill_attempt (invoke : String → Nat → Except String FillBlankQuestion)
    (prompt : String) (i : Nat) : Except String FillBlankQuestion :=
  match invoke prompt i with
  | Except.error e => Except.error e
  | Except.ok p => validate_fill p

/-- Terminal error message of `generate_mcq` (src/utils.py line 101). -/
def mcqWrap (e : String) : String :=
  "Failed to generate valid MCQ after " ++ toString max_attempts ++ " attempts: " ++ e

/-- Terminal error message of `generate_fill_blank` (src/utils.py line 138). -/
def fillWrap (e : String) : String :=
  "Failed to generate valid fill-in-the-blank question after "
    ++ toString max_attempts ++ " attempts: " ++ e

/-- `QuestionGenerator.generate_mcq` (src/utils.py lines 67-102): up to
three send-parse-validate attempts with an unchanged prompt; also
returns the number of external calls made. -/
def generate_mcq (invoke : String → Nat → Except String MCQQuestion)
    (topic difficulty : String) : Except String MCQQuestion × Nat :=
  retryGo (mcq_attempt invoke (mcq_prompt topic difficulty)) mcqWrap max_attempts 0

/-- `QuestionGenerator.generate_fill_blank` (src/utils.py lines 104-139). -/
def generate_fill_blank (invoke : String → Nat → Except String FillBlankQuestion)
    (topic difficulty : String) : Except String FillBlankQuestion × Nat :=
  retryGo (fill_attempt invoke (fill_prompt topic difficulty)) fillWrap max_attempts 0

/-! ## Quiz session (src/app.py) -/

/-- The `type` discriminator string stored in the question dicts of
`QuizManager.generate_questions`: `MCQ` or `Fill in the Blank`. -/
inductive QuestionType where
  | MCQ : QuestionType
  | FillBlank : QuestionType
deriving Repr, DecidableEq

/-- One entry of `QuizManager.questions` (the dicts built at src/app.py
lines 24-29 and 32-36).  Fill-in-the-blank entries carry no `options`
key; that is modelled by the empty list, which `evaluate_quiz` never
reads for that variant. -/
structure SessionQuestion where
  type : QuestionType
  question : String
  options : List String
  correct_answer : String
deriving Repr, DecidableEq

/-- The per-question result dict built by `QuizManager.evaluate_quiz`
(src/app.py lines 58-72). -/
structure AnswerRecord where
  question_number : Nat
  question : String
  question_type : QuestionType
  user_answer : String
  correct_answer : String
  is_correct : Bool
  options : List String
deriving Repr, DecidableEq

/-- The mutable fields of `QuizManager` (src/app.py lines 13-16). -/
structure QuizManager where
  questions : List SessionQuestion
  user_answers : List String
  results : List AnswerRecord
deriving Repr, DecidableEq

/-- Conversion of a validated MCQ into the session dict (src/app.py
lines 24-29). -/
def mcqToSession (q : MCQQuestion) : SessionQuestion :=
  ⟨QuestionType.MCQ, q.question, q.options, q.correct_answer⟩

/-- Conversion of a validated fill-in-the-blank question into the
session dict (src/app.py lines 32-36); the stored `correct_answer` is
the model's `answer` field. -/
def fillToSession (q : FillBlankQuestion) : SessionQuestion :=
  ⟨QuestionType.FillBlank, q.question, [], q.answer⟩

/-- The result of one acquisition inside the generation loop
(src/app.py lines 22-36): the Python string comparison
`question_type == "Multiple Choice"` selects the generator, and the
difficulty is lowercased before the call. -/
def acquireOf (mo : Nat → String → Nat → Except String MCQQuestion)
    (fo : Nat → String → Nat → Except String FillBlankQuestion)
    (question_type topic difficulty : String) (k : Nat) :
    Except String SessionQuestion :=
  if question_type = "Multiple Choice" then
    (generate_mcq (mo k) topic difficulty.toLower).1.map mcqToSession
  else
    (generate_fill_blank (fo k) topic difficulty.toLower).1.map fillToSession

/-- The `for _ in range(num_questions)` loop inside the `try` block of
`generate_questions` (src/app.py lines 20-36): each successful
acquisition is appended; the first terminal acquisition error is caught
by the `except` branch, which keeps the list appended so far and
returns `False`. -/
def gq_loop (acquire : Nat → Except String SessionQuestion) :
    Nat → Nat → List SessionQuestion → List SessionQuestion × Bool
  | 0, _, acc => (acc, true)
  | n + 1, k, acc =>
    match acquire k with
    | Except.ok q => gq_loop acquire n (k + 1) (acc ++ [q])
    | Except.error _ => (acc, false)

/-- `QuizManager.generate_questions` (src/app.py lines 18-40): first
clears `questions`, `user_answers` and `results`, then runs the
acquisition loop; returns the new state and the success flag. -/
def generate_questions (mo : Nat → String → Nat → Except String MCQQuestion)
    (fo : Nat → String → Nat → Except String FillBlankQuestion)
    (question_type topic difficulty : String) (num_questions : Nat)
    (_st : QuizManager) : QuizManager × Bool :=
  let r := gq_loop (acquireOf mo fo question_type topic difficulty) num_questions 0 []
  (⟨r.1, [], []⟩, r.2)

/-- One iteration of the grading loop of `evaluate_quiz` (src/app.py
lines 58-72), building the result dict for the zero-based index `i`:
MCQ correctness is exact string equality, fill-in-the-blank correctness
compares after `strip()` and `lower()`. -/
def gradeOne (i : Nat) (q : SessionQuestion) (user_ans : String) : AnswerRecord :=
  { question_number := i + 1
    question := q.question
    question_type := q.type
    user_answer := user_ans
    correct_answer := q.correct_answer
    is_correct :=
      match q.type with
      | QuestionType.MCQ => decide (user_ans = q.correct_answer)
      | QuestionType.FillBlank =>
          decide (pyNorm user_ans = pyNorm q.correct_answer)
    options :=
      match q.type with
      | QuestionType.MCQ => q.options
      | QuestionType.FillBlank => [] }

/-- The `for i, (q, user_ans) in enumerate(zip(...))` loop of
`evaluate_quiz`: pairs questions and submissions by position, stopping
at the shorter list. -/
def evalGo : Nat → List SessionQuestion → List String → List AnswerRecord
  | _, [], _ => []
  | _, _ :: _, [] => []
  | i, q :: qs, a :: as => gradeOne i q a :: evalGo (i + 1) qs as

/-- `QuizManager.evaluate_quiz` (src/app.py lines 55-72) as a function
of the question and submission lists it reads. -/
def evaluate_quiz (questions : List SessionQuestion) (user_answers : List String) :
    List AnswerRecord :=
  evalGo 0 questions user_answers

/-- `QuizManager.evaluate_quiz` at the state level: resets
`self.results` and recomputes it from `self.questions` and
`self.user_answers`, leaving the other fields unchanged. -/
def evaluate_quiz_st (st : QuizManager) : QuizManager :=
  { st with results := evaluate_quiz st.questions st.user_answers }

/-! ## Helper lemmas about the retry loop -/

/-- Full unfolding of the three-attempt loop entered at attempt 0. -/
theorem retry3_eq (step : Nat → Except String α) (wrap : String → String) :
    retryGo step wrap max_attempts 0 =
      match step 0 with
      | Except.ok a => (Except.ok a, 1)
      | Except.error _ =>
        match step 1 with
        | Except.ok a => (Except.ok a, 2)
        | Except.error _ =>
          match step 2 with
          | Except.ok a => (Except.ok a, 3)
          | Except.error e => (Except.error (wrap e), 3) := by
  rcases h0 : step 0 with e0 | a0 <;> rcases h1 : step 1 with e1 | a1 <;>
    rcases h2 : step 2 with e2 | a2 <;>
    simp [retryGo, max_attempts, h0, h1, h2]

/-- The loop never performs more than three attempts. -/
theorem retry_count_le (step : Nat → Except String α) (wrap : String → String) :
    (retryGo step wrap max_attempts 0).2 ≤ 3 := by
  rw [retry3_eq]
  rcases step 0 with e0 | a0 <;> rcases step 1 with e1 | a1 <;>
    rcases step 2 with e2 | a2 <;> simp

/-- If the first success is at attempt `k < 3`, the loop returns that
attempt's value after exactly `k + 1` attempts. -/
theorem retry_first_success (step : Nat → Except String α) (wrap : String → String)
    (k : Nat) (a : α) (hk : k < 3) (hs : step k = Except.ok a)
    (hf : ∀ j, j < k → ∃ e, step j = Except.error e) :
    retryGo step wrap max_attempts 0 = (Except.ok a, k + 1) := by
  rw [retry3_eq]
  interval_cases k
  · simp [hs]
  · obtain ⟨e0, h0⟩ := hf 0 (by omega)
    simp [h0, hs]
  · obtain ⟨e0, h0⟩ := hf 0 (by omega)
    obtain ⟨e1, h1⟩ := hf 1 (by omega)
    simp [h0, h1, hs]

/-- If all three attempts fail, the loop returns the wrapped description
of the third failure after exactly three attempts. -/
theorem retry_all_fail (step : Nat → Except String α) (wrap : String → String)
    (e0 e1 e2 : String) (h0 : step 0 = Except.error e0)
    (h1 : step 1 = Except.error e1) (h2 : step 2 = Except.error e2) :
    retryGo step wrap max_attempts 0 = (Except.error (wrap e2), 3) := by
  rw [retry3_eq]
  simp [h0, h1, h2]

/-- The loop's outcome depends only on the first three attempts. -/
theorem retry_congr (step step' : Nat → Except String α) (wrap : String → String)
    (h : ∀ i, i < 3 → step i = step' i) :
    retryGo step wrap max_attempts 0 = retryGo step' wrap max_attempts 0 := by
  rw [retry3_eq, retry3_eq, h 0 (by omega), h 1 (by omega), h 2 (by omega)]

/-- A successful loop outcome is the value of some attempt below three. -/
theorem retry_ok_imp (step : Nat → Except String α) (wrap : String → String)
    (a : α) (n : Nat) (h : retryGo step wrap max_attempts 0 = (Except.ok a, n)) :
    ∃ k, k < 3 ∧ step k = Except.ok a := by
  rw [retry3_eq] at h
  rcases h0 : step 0 with e0 | a0 <;> rcases h1 : step 1 with e1 | a1 <;>
    rcases h2 : step 2 with e2 | a2 <;> simp [h0, h1, h2] at h
  all_goals first
    | exact ⟨0, by omega, by rw [h0, h.1]⟩
    | exact ⟨1, by omega, by rw [h1, h.1]⟩
    | exact ⟨2, by omega, by rw [h2, h.1]⟩

/-! ## Claim theorems -/

/-- C1: For every acquisition call (`generate_mcq` or
`generate_fill_blank`), the send-parse-validate cycle is attempted at
most 3 times; if some attempt among the first 3 succeeds, the validated
question of that attempt is returned after exactly that many external
calls; failures on attempts 1 and 2 are swallowed and retried with the
same prompt; if all 3 attempts fail, a terminal error carrying the last
failure's description is raised after exactly 3 calls, and the outcome
never depends on any attempt beyond the third (no 4th attempt). -/
theorem retry_policy_three_attempts
    (invoke : String → Nat → Except String MCQQuestion)
    (invokeF : String → Nat → Except String FillBlankQuestion)
    (topic difficulty : String) :
    (generate_mcq invoke topic difficulty).2 ≤ 3 ∧
    (generate_fill_blank invokeF topic difficulty).2 ≤ 3 ∧
    (∀ k q, k < 3 →
      mcq_attempt invoke (mcq_prompt topic difficulty) k = Except.ok q →
      (∀ j, j < k → ∃ e, mcq_attempt invoke (mcq_prompt topic difficulty) j = Except.error e) →
      generate_mcq invoke topic difficulty = (Except.ok q, k + 1)) ∧
    (∀ k q, k < 3 →
      fill_attempt invokeF (fill_prompt topic difficulty) k = Except.ok q →
      (∀ j, j < k → ∃ e, fill_attempt invokeF (fill_prompt topic difficulty) j = Except.error e) →
      generate_fill_blank invokeF topic difficulty = (Except.ok q, k + 1)) ∧
    (∀ e0 e1 e2,
      mcq_attempt invoke (mcq_prompt topic difficulty) 0 = Except.error e0 →
      mcq_attempt invoke (mcq_prompt topic difficulty) 1 = Except.error e1 →
      mcq_attempt invoke (mcq_prompt topic difficulty) 2 = Except.error e2 →
      generate_mcq invoke topic difficulty = (Except.error (mcqWrap e2), 3)) ∧
    (∀ e0 e1 e2,
      fill_attempt invokeF (fill_prompt topic difficulty) 0 = Except.error e0 →
      fill_attempt invokeF (fill_prompt topic difficulty) 1 = Except.error e1 →
      fill_attempt invokeF (fill_prompt topic difficulty) 2 = Except.error e2 →
      generate_fill_blank invokeF topic difficulty = (Except.error (fillWrap e2), 3)) ∧
    (∀ invoke2 : String → Nat → Except String MCQQuestion,
      (∀ i, i < 3 →
        invoke2 (mcq_prompt topic difficulty) i = invoke (mcq_prompt topic difficulty) i) →
      generate_mcq invoke2 topic difficulty = generate_mcq invoke topic difficulty) ∧
    (∀ invokeF2 : String → Nat → Except String FillBlankQuestion,
      (∀ i, i < 3 →
        invokeF2 (fill_prompt topic difficulty) i = invokeF (fill_prompt topic difficulty) i) →
      generate_fill_blank invokeF2 topic difficulty = generate_fill_blank invokeF topic difficulty) := by
  refine ⟨retry_count_le _ _, retry_count_le _ _, ?_, ?_, ?_, ?_, ?_, ?_⟩
  · intro k q hk hs hf
    exact retry_first_success _ _ k q hk hs hf
  · intro k q hk hs hf
    exact retry_first_success _ _ k q hk hs hf
  · intro e0 e1 e2 h0 h1 h2
    exact retry_all_fail _ _ e0 e1 e2 h0 h1 h2
  · intro e0 e1 e2 h0 h1 h2
    exact retry_all_fail _ _ e0 e1 e2 h0 h1 h2
  · intro invoke2 h
    refine retry_congr _ _ _ ?_
    intro i hi
    unfold mcq_attempt
    rw [h i hi]
  · intro invokeF2 h
    refine retry_congr _ _ _ ?_
    intro i hi
    unfold fill_attempt
    rw [h i hi]

/-- Oracle that fails with a transport error on attempt 0, returns a
schema-valid but rule-violating MCQ on attempt 1 (empty question text),
and a valid MCQ on attempt 2. -/
def c1Invoke : String → Nat → Except String MCQQuestion := fun _ i =>
  match i with
  | 0 => Except.error "transport down"
  | 1 => Except.ok ⟨"", ["A", "B", "C", "D"], "A"⟩
  | _ => Except.ok ⟨"Q1", ["A", "B", "C", "D"], "A"⟩

/-- Witness for C1: with failures on attempts 0 and 1 and a success on
attempt 2, acquisition returns the attempt-2 question and makes exactly
3 calls. -/
theorem retry_policy_three_attempts_witness :
    generate_mcq c1Invoke "history" "medium"
      = (Except.ok ⟨"Q1", ["A", "B", "C", "D"], "A"⟩, 3) := by
  refine (retry_policy_three_attempts c1Invoke (fun _ _ => Except.error "unused")
    "history" "medium").2.2.1 2 ⟨"Q1", ["A", "B", "C", "D"], "A"⟩ (by omega) (by rfl) ?_
  intro j hj
  interval_cases j
  · exact ⟨"transport down", by rfl⟩
  · exact ⟨"Invalid question format", by rfl⟩

/-- The four MCQ validation rules of src/utils.py lines 93-96. -/
def mcqRules (p : MCQQuestion) : Prop :=
  p.question ≠ "" ∧ p.options.length = 4 ∧ p.correct_answer ≠ "" ∧
    p.correct_answer ∈ p.options

/-- `validate_mcq` succeeds exactly on responses satisfying all four
rules, and then returns the response unchanged. -/
theorem validate_mcq_ok_iff (p q : MCQQuestion) :
    validate_mcq p = Except.ok q ↔ (q = p ∧ mcqRules p) := by
  unfold validate_mcq mcqRules
  split
  next h =>
    simp only [Bool.or_eq_true, decide_eq_true_eq, String.isEmpty_iff] at h
    constructor
    · intro hcontra
      exact Except.noConfusion hcontra
    · rintro ⟨rfl, h1, h2, h3, -⟩
      rcases h with (h | h) | h
      · exact absurd h h1
      · exact absurd h2 h
      · exact absurd h h3
  next h =>
    simp only [Bool.or_eq_true, decide_eq_true_eq, String.isEmpty_iff] at h
    push_neg at h
    obtain ⟨⟨h1, h2⟩, h3⟩ := h
    split
    next hm =>
      simp only [decide_eq_true_eq] at hm
      constructor
      · intro hcontra
        exact Except.noConfusion hcontra
      · rintro ⟨rfl, -, -, -, h4⟩
        exact absurd h4 hm
    next hm =>
      simp only [decide_eq_true_eq, not_not] at hm
      constructor
      · intro hok
        injection hok with hpq
        subst hpq
        exact ⟨rfl, h1, h2, h3, hm⟩
      · rintro ⟨rfl, -⟩
        rfl

/-- A response violating any rule makes the attempt fail. -/
theorem validate_mcq_err_of_bad (p : MCQQuestion) (h : ¬ mcqRules p) :
    ∃ e, validate_mcq p = Except.error e := by
  rcases he : validate_mcq p with e | q
  · exact ⟨e, rfl⟩
  · exact absurd ((validate_mcq_ok_iff p q).mp he).2 h

/-- C4: every MultipleChoice question successfully returned by
`generate_mcq` has non-empty question text, exactly 4 options, a
non-empty correct answer that is string-equal to one of the options;
and a parsed response violating any of these rules makes its attempt
fail (no partial or best-effort result). -/
theorem mcq_validation_rules :
    (∀ (invoke : String → Nat → Except String MCQQuestion)
        (topic difficulty : String) (q : MCQQuestion) (n : Nat),
      generate_mcq invoke topic difficulty = (Except.ok q, n) →
      q.question ≠ "" ∧ q.options.length = 4 ∧ q.correct_answer ≠ "" ∧
        q.correct_answer ∈ q.options) ∧
    (∀ p : MCQQuestion,
      ¬ (p.question ≠ "" ∧ p.options.length = 4 ∧ p.correct_answer ≠ "" ∧
          p.correct_answer ∈ p.options) →
      ∃ e, validate_mcq p = Except.error e) := by
  constructor
  · intro invoke topic difficulty q n h
    obtain ⟨k, -, hk⟩ := retry_ok_imp _ mcqWrap q n h
    unfold mcq_attempt at hk
    rcases hi : invoke (mcq_prompt topic difficulty) k with e | p <;> rw [hi] at hk
    · exact absurd hk (by simp)
    · obtain ⟨rfl, hr⟩ := (validate_mcq_ok_iff p q).mp hk
      exact hr
  · intro p h
    exact validate_mcq_err_of_bad p h

/-- A rule-satisfying MCQ used by several witnesses. -/
def goodMCQ : MCQQuestion := ⟨"What is 2 plus 2?", ["1", "2", "3", "4"], "4"⟩

/-- Witness for C4: a first-attempt success satisfies all four rules,
and a response with an empty question text is rejected. -/
theorem mcq_validation_rules_witness :
    (goodMCQ.question ≠ "" ∧ goodMCQ.options.length = 4 ∧
      goodMCQ.correct_answer ≠ "" ∧ goodMCQ.correct_answer ∈ goodMCQ.options) ∧
    (∃ e, validate_mcq ⟨"", ["A", "B", "C", "D"], "A"⟩ = Except.error e) := by
  constructor
  · exact mcq_validation_rules.1 (fun _ _ => Except.ok goodMCQ) "math" "easy"
      goodMCQ 1 (by rfl)
  · exact mcq_validation_rules.2 ⟨"", ["A", "B", "C", "D"], "A"⟩ (by simp)

/-! ## Helper lemmas about the blank marker and the repair -/

theorem take_len_append (l t : List Char) : (l ++ t).take l.length = l := by
  induction l with
  | nil => simp
  | cons c l ih => simp [ih]

/-- A list starting with the pattern contains the pattern. -/
theorem containsSub_self_append (pat t : List Char) :
    containsSub pat (pat ++ t) = true := by
  cases pat with
  | nil =>
    cases t with
    | nil => rfl
    | cons c t' => simp [containsSub]
  | cons p pat' =>
    have ht : (p :: (pat' ++ t)).take (p :: pat').length = p :: pat' := by
      simp [take_len_append]
    simp [containsSub, ht]

/-- Containment is preserved by prepending a character. -/
theorem containsSub_cons_of (pat s : List Char) (c : Char)
    (h : containsSub pat s = true) : containsSub pat (c :: s) = true := by
  simp [containsSub, h]

/-- The repair law on characters: a list containing the three-underscore
marker still contains the five-underscore marker after the replace. -/
theorem repair_keeps_blank : ∀ (fuel : Nat) (s : List Char), s.length ≤ fuel →
    containsSub blank3 s = true →
    containsSub blank5 (pyReplaceGo blank3 blank5 fuel s) = true := by
  intro fuel
  induction fuel with
  | zero =>
    intro s hs h
    have hnil : s = [] := List.length_eq_zero.mp (Nat.le_zero.mp hs)
    subst hnil
    simp [containsSub, blank3] at h
  | succ fuel ih =>
    intro s hs h
    cases s with
    | nil => simp [containsSub, blank3] at h
    | cons c rest =>
      by_cases hm : blank3 ≠ [] ∧ (c :: rest).take blank3.length = blank3
      · simp only [pyReplaceGo, if_pos hm]
        exact containsSub_self_append blank5 _
      · simp only [pyReplaceGo, if_neg hm]
        apply containsSub_cons_of
        apply ih
        · simp only [List.length_cons] at hs
          omega
        · have h' : (decide ((c :: rest).take blank3.length = blank3)
              || containsSub blank3 rest) = true := by simpa [containsSub] using h
          rw [Bool.or_eq_true] at h'
          rcases h' with htk | hrest
          · exact absurd ⟨by decide, of_decide_eq_true htk⟩ hm
          · exact hrest

/-- A string containing the blank marker is non-empty. -/
theorem hasBlank_ne_empty (s : String) (h : hasBlank s = true) : s ≠ "" := by
  intro hs
  rw [hs] at h
  exact absurd h (by decide)

/-- Every question `validate_fill` lets through is non-empty, has a
non-empty answer, and contains the five-underscore marker. -/
theorem validate_fill_ok (p q : FillBlankQuestion)
    (h : validate_fill p = Except.ok q) :
    q.question ≠ "" ∧ q.answer ≠ "" ∧ hasBlank q.question = true := by
  unfold validate_fill at h
  split at h
  next h1 => exact Except.noConfusion h
  next h1 =>
    simp only [Bool.or_eq_true, String.isEmpty_iff] at h1
    push_neg at h1
    obtain ⟨hq, ha⟩ := h1
    split at h
    next h2 =>
      split at h
      next h3 => exact Except.noConfusion h
      next h3 =>
        injection h with hq2
        subst hq2
        have h3' : hasBlank (repairStr p.question) = true := by simpa using h3
        exact ⟨hasBlank_ne_empty _ h3', ha, h3'⟩
    next h2 =>
      injection h with hq2
      subst hq2
      have h2' : hasBlank p.question = true := by simpa using h2
      exact ⟨hq, ha, h2'⟩

/-- C5: every FillBlank question successfully returned by
`generate_fill_blank` has non-empty question and answer and its text
contains the five-underscore marker; within an attempt, a parsed
question lacking the marker but containing the shorter three-underscore
marker is repaired by the replace and accepted, and the attempt fails
only if the marker is still absent after that single repair. -/
theorem fill_blank_marker_and_repair :
    (∀ (invoke : String → Nat → Except String FillBlankQuestion)
        (topic difficulty : String) (q : FillBlankQuestion) (n : Nat),
      generate_fill_blank invoke topic difficulty = (Except.ok q, n) →
      q.question ≠ "" ∧ q.answer ≠ "" ∧ hasBlank q.question = true) ∧
    (∀ p : FillBlankQuestion, p.question ≠ "" → p.answer ≠ "" →
      hasBlank p.question = false → hasShort p.question = true →
      validate_fill p = Except.ok ⟨repairStr p.question, p.answer⟩ ∧
        hasBlank (repairStr p.question) = true) ∧
    (∀ p : FillBlankQuestion, p.question ≠ "" → p.answer ≠ "" →
      hasBlank p.question = false → hasBlank (repairStr p.question) = false →
      ∃ e, validate_fill p = Except.error e) := by
  refine ⟨?_, ?_, ?_⟩
  · intro invoke topic difficulty q n h
    obtain ⟨k, -, hk⟩ := retry_ok_imp _ fillWrap q n h
    unfold fill_attempt at hk
    rcases hi : invoke (fill_prompt topic difficulty) k with e | p <;> rw [hi] at hk
    · exact absurd hk (by simp)
    · exact validate_fill_ok p q hk
  · intro p hq ha h5 h3
    have hrep : hasBlank (repairStr p.question) = true :=
      repair_keeps_blank p.question.data.length p.question.data le_rfl h3
    refine ⟨?_, hrep⟩
    simp [validate_fill, String.isEmpty_iff, hq, ha, h5, hrep]
  · intro p hq ha h5 h5r
    refine ⟨"Question missing blank marker", ?_⟩
    simp [validate_fill, String.isEmpty_iff, hq, ha, h5, h5r]

/-- A fill-in-the-blank response whose text has only the short marker. -/
def c5Fill : FillBlankQuestion := ⟨"The capital of France is ___.", "Paris"⟩

/-- Witness for C5: the short marker is repaired into the five-underscore
marker and the repaired question is accepted. -/
theorem fill_blank_marker_and_repair_witness :
    validate_fill c5Fill
      = Except.ok ⟨"The capital of France is _____.", "Paris"⟩ := by
  have h := fill_blank_marker_and_repair.2.1 c5Fill (by decide) (by decide)
    (by decide) (by decide)
  have hr : repairStr "The capital of France is ___."
      = "The capital of France is _____." := by decide
  rw [h.1]
  rw [show c5Fill.question = "The capital of France is ___." from rfl, hr]
  rfl

/-! ## Helper lemmas about the generation loop -/

/-- A successful retry outcome (first component) is the value of some
attempt below three. -/
theorem retry_ok_fst (step : Nat → Except String α) (wrap : String → String)
    (a : α) (h : (retryGo step wrap max_attempts 0).1 = Except.ok a) :
    ∃ k, k < 3 ∧ step k = Except.ok a := by
  rw [retry3_eq] at h
  rcases h0 : step 0 with e0 | a0 <;> rcases h1 : step 1 with e1 | a1 <;>
    rcases h2 : step 2 with e2 | a2 <;> simp [h0, h1, h2] at h
  all_goals first
    | exact ⟨0, by omega, by rw [h0, h]⟩
    | exact ⟨1, by omega, by rw [h1, h]⟩
    | exact ⟨2, by omega, by rw [h2, h]⟩

/-- The first component of a successful `generate_mcq` run satisfies the
four validation rules. -/
theorem generate_mcq_ok_rules (invoke : String → Nat → Except String MCQQuestion)
    (topic difficulty : String) (q : MCQQuestion)
    (h : (generate_mcq invoke topic difficulty).1 = Except.ok q) : mcqRules q := by
  obtain ⟨k, -, hk⟩ := retry_ok_fst _ mcqWrap q h
  unfold mcq_attempt at hk
  rcases hi : invoke (mcq_prompt topic difficulty) k with e | p <;> rw [hi] at hk
  · exact absurd hk (by simp)
  · obtain ⟨rfl, hr⟩ := (validate_mcq_ok_iff p q).mp hk
    exact hr

/-- Every question in the loop's output was in the accumulator or came
from a successful acquisition. -/
theorem gq_loop_mem (acquire : Nat → Except String SessionQuestion) :
    ∀ (n k : Nat) (acc : List SessionQuestion) (q : SessionQuestion),
    q ∈ (gq_loop acquire n k acc).1 → q ∈ acc ∨ ∃ j, acquire j = Except.ok q := by
  intro n
  induction n with
  | zero =>
    intro k acc q h
    exact Or.inl h
  | succ n ih =>
    intro k acc q h
    simp only [gq_loop] at h
    rcases ha : acquire k with e | q' <;> rw [ha] at h
    · exact Or.inl h
    · rcases ih (k + 1) (acc ++ [q']) q h with hacc | hex
      · rcases List.mem_append.mp hacc with h1 | h2
        · exact Or.inl h1
        · have hq : q = q' := by simpa using h2
          exact Or.inr ⟨k, by rw [ha, hq]⟩
      · exact hex.elim fun j hj => Or.inr ⟨j, hj⟩

/-- If the first `m` acquisitions (from index `k0`) succeed and the
next one fails, the loop stops with the `m` appended questions and the
failure flag. -/
theorem gq_loop_fail_len (acquire : Nat → Except String SessionQuestion) :
    ∀ (m n k0 : Nat) (acc : List SessionQuestion), m < n →
    (∀ j, j < m → ∃ q, acquire (k0 + j) = Except.ok q) →
    (∃ e, acquire (k0 + m) = Except.error e) →
    (gq_loop acquire n k0 acc).1.length = acc.length + m ∧
      (gq_loop acquire n k0 acc).2 = false := by
  intro m
  induction m with
  | zero =>
    intro n k0 acc hn hok hfail
    obtain ⟨e, he⟩ := hfail
    rw [Nat.add_zero] at he
    obtain ⟨n', rfl⟩ : ∃ n', n = n' + 1 := ⟨n - 1, by omega⟩
    have hstep : gq_loop acquire (n' + 1) k0 acc = (acc, false) := by
      simp only [gq_loop, he]
    rw [hstep]
    exact ⟨rfl, rfl⟩
  | succ m ih =>
    intro n k0 acc hn hok hfail
    obtain ⟨q0, hq0⟩ := hok 0 (by omega)
    rw [Nat.add_zero] at hq0
    obtain ⟨n', rfl⟩ : ∃ n', n = n' + 1 := ⟨n - 1, by omega⟩
    have hstep : gq_loop acquire (n' + 1) k0 acc
        = gq_loop acquire n' (k0 + 1) (acc ++ [q0]) := by
      simp only [gq_loop, hq0]
    rw [hstep]
    have hrec := ih n' (k0 + 1) (acc ++ [q0]) (by omega)
      (fun j hj => by
        obtain ⟨q, hq⟩ := hok (j + 1) (by omega)
        exact ⟨q, by rwa [show k0 + (j + 1) = k0 + 1 + j by omega] at hq⟩)
      (by
        obtain ⟨e, he⟩ := hfail
        exact ⟨e, by rwa [show k0 + (m + 1) = k0 + 1 + m by omega] at he⟩)
    refine ⟨?_, hrec.2⟩
    rw [hrec.1]
    simp
    omega

/-- An initial `QuizManager` with no questions, answers or results. -/
def emptyQM : QuizManager := ⟨[], [], []⟩

/-- A fill-in-the-blank oracle that always fails (unused side of the
question-type branch in several witnesses). -/
def noFill : Nat → String → Nat → Except String FillBlankQuestion :=
  fun _ _ _ => Except.error "unavailable"

/-- MCQ oracle whose acquisitions 0 and 1 succeed immediately and whose
acquisition 2 (and beyond) always fails. -/
def c2Mo : Nat → String → Nat → Except String MCQQuestion := fun k _ _ =>
  if k < 2 then Except.ok goodMCQ else Except.error "model outage"

/-- Counterexample to C2 as stated: when the 3rd question's acquisition
exhausts its retries, generation fails but the session's question list
has length 2, not 0 — the partial list is kept. -/
theorem gq_failure_empties_list_cex :
    (generate_questions c2Mo noFill "Multiple Choice" "history" "Medium" 3 emptyQM).2
      = false ∧
    (generate_questions c2Mo noFill "Multiple Choice" "history" "Medium" 3 emptyQM).1.questions.length
      = 2 := by
  constructor
  · rfl
  · rfl

/-- C2 (amended): if the acquisition of the k-th question terminally
fails after its retries, the whole generation action fails (returns
`false`) and the session keeps the k-1 previously acquired questions
(list length k-1, not 0); the submission and result lists are empty
because the action cleared them on entry. -/
theorem gq_keeps_acquired_on_failure
    (mo : Nat → String → Nat → Except String MCQQuestion)
    (fo : Nat → String → Nat → Except String FillBlankQuestion)
    (question_type topic difficulty : String) (N k : Nat) (st : QuizManager)
    (hk : k < N)
    (hok : ∀ j, j < k →
      ∃ q, acquireOf mo fo question_type topic difficulty j = Except.ok q)
    (hfail : ∃ e, acquireOf mo fo question_type topic difficulty k = Except.error e) :
    (generate_questions mo fo question_type topic difficulty N st).2 = false ∧
    (generate_questions mo fo question_type topic difficulty N st).1.questions.length = k ∧
    (generate_questions mo fo question_type topic difficulty N st).1.user_answers = [] ∧
    (generate_questions mo fo question_type topic difficulty N st).1.results = [] := by
  have h := gq_loop_fail_len (acquireOf mo fo question_type topic difficulty) k N 0 [] hk
    (fun j hj => by simpa using hok j hj) (by simpa using hfail)
  exact ⟨h.2, by simpa using h.1, rfl, rfl⟩

/-- Witness for C2 (amended): acquisitions 0 and 1 succeed, acquisition
2 fails, the action fails with exactly the 2 acquired questions kept. -/
theorem gq_keeps_acquired_on_failure_witness :
    (generate_questions c2Mo noFill "Multiple Choice" "history" "Medium" 4 emptyQM).2
      = false ∧
    (generate_questions c2Mo noFill "Multiple Choice" "history" "Medium" 4 emptyQM).1.questions.length
      = 2 ∧
    (generate_questions c2Mo noFill "Multiple Choice" "history" "Medium" 4 emptyQM).1.user_answers
      = [] ∧
    (generate_questions c2Mo noFill "Multiple Choice" "history" "Medium" 4 emptyQM).1.results
      = [] := by
  refine gq_keeps_acquired_on_failure c2Mo noFill "Multiple Choice" "history" "Medium" 4 2
    emptyQM (by omega) ?_ ?_
  · intro j hj
    interval_cases j
    · exact ⟨mcqToSession goodMCQ, by rfl⟩
    · exact ⟨mcqToSession goodMCQ, by rfl⟩
  · exact ⟨mcqWrap "model outage", by rfl⟩

/-- A session state holding prior questions, submissions and results. -/
def c7St : QuizManager := ⟨[mcqToSession goodMCQ], ["an old submission"], []⟩

/-- MCQ oracle that always fails. -/
def c7Mo : Nat → String → Nat → Except String MCQQuestion :=
  fun _ _ _ => Except.error "outage"

/-- Counterexample to C7 as stated: a failed generation does not leave
the prior state untouched — the prior submission list is gone. -/
theorem gq_prior_state_cex :
    (generate_questions c7Mo noFill "Multiple Choice" "geography" "Easy" 2 c7St).2
      = false ∧
    (generate_questions c7Mo noFill "Multiple Choice" "geography" "Easy" 2 c7St).1.user_answers
      ≠ c7St.user_answers := by
  constructor
  · rfl
  · decide

/-- C7 (amended): a generation action, failed or not, discards the
prior state entirely: its outcome is independent of the prior state,
and after the call the submission and result lists are empty (the
question list holds only questions acquired during this very call). -/
theorem gq_discards_prior_state
    (mo : Nat → String → Nat → Except String MCQQuestion)
    (fo : Nat → String → Nat → Except String FillBlankQuestion)
    (question_type topic difficulty : String) (n : Nat) (st st' : QuizManager) :
    generate_questions mo fo question_type topic difficulty n st
      = generate_questions mo fo question_type topic difficulty n st' ∧
    (generate_questions mo fo question_type topic difficulty n st).1.user_answers = [] ∧
    (generate_questions mo fo question_type topic difficulty n st).1.results = [] :=
  ⟨rfl, rfl, rfl⟩

/-- An MCQ whose four options are pairwise equal. -/
def c8Dup : MCQQuestion := ⟨"Pick the letter A", ["A", "A", "A", "A"], "A"⟩

/-- MCQ oracle that always returns the duplicate-option question. -/
def c8Mo : Nat → String → Nat → Except String MCQQuestion :=
  fun _ _ _ => Except.ok c8Dup

/-- Counterexample to C8 as stated: a question whose 4 options are all
equal passes validation and is exposed to the session, so the options
of a session MCQ need not be pairwise distinct. -/
theorem mcq_options_distinct_cex :
    mcqToSession c8Dup
      ∈ (generate_questions c8Mo noFill "Multiple Choice" "letters" "Easy" 1 emptyQM).1.questions
    ∧ ¬ (mcqToSession c8Dup).options.Nodup := by
  constructor
  · exact List.mem_singleton_self _
  · decide

/-- C8 (amended): every MultipleChoice question exposed to the session
has an ordered list of exactly 4 option strings (not necessarily
distinct) and a correct answer equal to one of them. -/
theorem mcq_session_shape
    (mo : Nat → String → Nat → Except String MCQQuestion)
    (fo : Nat → String → Nat → Except String FillBlankQuestion)
    (topic difficulty : String) (n : Nat) (st : QuizManager) (q : SessionQuestion)
    (hq : q ∈ (generate_questions mo fo "Multiple Choice" topic difficulty n st).1.questions) :
    q.type = QuestionType.MCQ ∧ q.options.length = 4 ∧
      q.correct_answer ∈ q.options := by
  rcases gq_loop_mem (acquireOf mo fo "Multiple Choice" topic difficulty) n 0 [] q hq
    with habs | ⟨j, hj⟩
  · cases habs
  · unfold acquireOf at hj
    rw [if_pos rfl] at hj
    rcases hg : (generate_mcq (mo j) topic difficulty.toLower).1 with e | q0 <;>
      rw [hg] at hj
    · exact Except.noConfusion hj
    · injection hj with hq0
      have hr := generate_mcq_ok_rules (mo j) topic difficulty.toLower q0 hg
      rw [← hq0]
      exact ⟨rfl, hr.2.1, hr.2.2.2⟩

/-- MCQ oracle that always returns the rule-satisfying `goodMCQ`. -/
def c8GoodMo : Nat → String → Nat → Except String MCQQuestion :=
  fun _ _ _ => Except.ok goodMCQ

/-- Witness for C8 (amended): a generated session question has 4
options containing its correct answer. -/
theorem mcq_session_shape_witness :
    (mcqToSession goodMCQ).type = QuestionType.MCQ ∧
    (mcqToSession goodMCQ).options.length = 4 ∧
    (mcqToSession goodMCQ).correct_answer ∈ (mcqToSession goodMCQ).options :=
  mcq_session_shape c8GoodMo noFill "math" "Easy" 1 emptyQM (mcqToSession goodMCQ)
    (List.mem_singleton_self _)

/-! ## Helper lemmas about the grading loop -/

/-- Every record produced by the grading loop is the grading of some
indexed (question, submission) pair. -/
theorem evalGo_mem : ∀ (i : Nat) (qs : List SessionQuestion) (as : List String)
    (r : AnswerRecord), r ∈ evalGo i qs as →
    ∃ j q a, r = gradeOne j q a := by
  intro i qs
  induction qs generalizing i with
  | nil =>
    intro as r h
    cases h
  | cons q qs ih =>
    intro as r h
    cases as with
    | nil => cases h
    | cons a as =>
      rcases List.mem_cons.mp h with h1 | h2
      · exact ⟨i, q, a, h1⟩
      · exact ih (i + 1) as r h2

/-- The grading loop produces one record per zipped pair. -/
theorem evalGo_length : ∀ (i : Nat) (qs : List SessionQuestion) (as : List String),
    (evalGo i qs as).length = min qs.length as.length := by
  intro i qs
  induction qs generalizing i with
  | nil =>
    intro as
    simp [evalGo]
  | cons q qs ih =>
    intro as
    cases as with
    | nil => simp [evalGo]
    | cons a as =>
      simp only [evalGo, List.length_cons, ih (i + 1)]
      omega

/-- Positional characterisation of the grading loop's output. -/
theorem evalGo_getElem : ∀ (qs : List SessionQuestion) (i j : Nat) (as : List String),
    (evalGo i qs as)[j]? =
      match qs[j]?, as[j]? with
      | some q, some a => some (gradeOne (i + j) q a)
      | _, _ => none := by
  intro qs
  induction qs with
  | nil =>
    intro i j as
    cases as[j]? <;> simp [evalGo]
  | cons q qs ih =>
    intro i j as
    cases as with
    | nil =>
      cases h : (q :: qs)[j]? <;> simp [evalGo, h]
    | cons a as =>
      cases j with
      | zero => simp [evalGo]
      | succ j =>
        simp only [evalGo, List.getElem?_cons_succ, ih (i + 1) j as,
          show i + 1 + j = i + (j + 1) by omega]

/-- C3: for every graded (question, submission) pair, a MultipleChoice
record is correct exactly when the raw submission is string-equal to
the correct answer, and a FillBlank record is correct exactly when the
trimmed, lowercased submission equals the trimmed, lowercased correct
answer. -/
theorem grading_correctness_rule (qs : List SessionQuestion) (as : List String)
    (r : AnswerRecord) (hr : r ∈ evaluate_quiz qs as) :
    (r.question_type = QuestionType.MCQ →
      (r.is_correct = true ↔ r.user_answer = r.correct_answer)) ∧
    (r.question_type = QuestionType.FillBlank →
      (r.is_correct = true ↔
        pyNorm r.user_answer = pyNorm r.correct_answer)) := by
  obtain ⟨j, q, a, rfl⟩ := evalGo_mem 0 qs as r hr
  cases hty : q.type with
  | MCQ =>
    constructor
    · intro _
      simp [gradeOne, hty]
    · intro hrt
      simp [gradeOne, hty] at hrt
  | FillBlank =>
    constructor
    · intro hrt
      simp [gradeOne, hty] at hrt
    · intro _
      simp [gradeOne, hty]

/-- A fill-in-the-blank session question with correct answer `Paris`. -/
def parisQ : SessionQuestion :=
  ⟨QuestionType.FillBlank, "The capital of France is _____.", [], "Paris"⟩

/-- Witness for C3: submission with stray spaces and case grades
correct against `Paris`; a different word grades incorrect. -/
theorem grading_correctness_rule_witness :
    (gradeOne 0 parisQ " paris ").is_correct = true ∧
    (gradeOne 1 parisQ "London").is_correct = false := by
  constructor
  · exact ((grading_correctness_rule [parisQ, parisQ] [" paris ", "London"]
      (gradeOne 0 parisQ " paris ") (by decide)).2 rfl).mpr (by decide)
  · have h := (grading_correctness_rule [parisQ, parisQ] [" paris ", "London"]
      (gradeOne 1 parisQ "London") (by decide)).2 rfl
    cases hb : (gradeOne 1 parisQ "London").is_correct
    · rfl
    · exact absurd (h.mp hb) (by decide)

/-- A well-formed MultipleChoice session question shared by witnesses. -/
def sampleMCQSession : SessionQuestion :=
  ⟨QuestionType.MCQ, "Sample question", ["A", "B", "C", "D"], "A"⟩

/-- Counterexample to C6 as stated: invoked with 2 questions and 1
submission (mismatched lengths), grading is not rejected — one Answer
Record is computed. -/
theorem grading_mismatch_cex :
    (evaluate_quiz [sampleMCQSession, sampleMCQSession] ["A"]).length = 1 := by
  rfl

/-- C6 (amended): `evaluate_quiz` performs no defensive precondition
check. With no submissions it produces an empty record list (and no
user-visible message at grading time; only the export helpers warn on
empty results). With mismatched lengths it silently grades the first
min(questions, submissions) pairs instead of rejecting. -/
theorem grading_no_defensive_check :
    (∀ qs : List SessionQuestion, evaluate_quiz qs [] = []) ∧
    (∀ (qs : List SessionQuestion) (as : List String), qs.length ≠ as.length →
      (evaluate_quiz qs as).length = min qs.length as.length) := by
  constructor
  · intro qs
    cases qs <;> rfl
  · intro qs as _
    exact evalGo_length 0 qs as

/-- Witness for C6 (amended): no submissions yields no records; a 2-1
mismatch yields exactly one record. -/
theorem grading_no_defensive_check_witness :
    evaluate_quiz [sampleMCQSession] [] = [] ∧
    (evaluate_quiz [sampleMCQSession, sampleMCQSession] ["A", "B", "C"]).length = 2 := by
  constructor
  · exact grading_no_defensive_check.1 [sampleMCQSession]
  · have h := grading_no_defensive_check.2 [sampleMCQSession, sampleMCQSession]
      ["A", "B", "C"] (by decide)
    simpa using h

/-- C9: grading is idempotent — grading a second time with the question
and submission lists unchanged produces the same Answer Records (indeed
the same whole state). -/
theorem grading_idempotent (st : QuizManager) :
    (evaluate_quiz_st (evaluate_quiz_st st)).results = (evaluate_quiz_st st).results ∧
    evaluate_quiz_st (evaluate_quiz_st st) = evaluate_quiz_st st :=
  ⟨rfl, rfl⟩

/-- C10: `evaluate_quiz` is a total function producing exactly
min(questions, submissions) records, pairing by position, ignoring
surplus entries of the longer list, and numbering records 1, 2, ... in
order. -/
theorem grading_total_min_pairing (qs : List SessionQuestion) (as : List String) :
    (evaluate_quiz qs as).length = min qs.length as.length ∧
    (∀ (j : Nat) (q : SessionQuestion) (a : String),
      qs[j]? = some q → as[j]? = some a →
      (evaluate_quiz qs as)[j]? = some (gradeOne j q a)) ∧
    (∀ (j : Nat) (r : AnswerRecord),
      (evaluate_quiz qs as)[j]? = some r → r.question_number = j + 1) := by
  refine ⟨evalGo_length 0 qs as, ?_, ?_⟩
  · intro j q a hq ha
    rw [evaluate_quiz, evalGo_getElem qs 0 j as, hq, ha]
    simp
  · intro j r h
    rw [evaluate_quiz, evalGo_getElem qs 0 j as] at h
    rcases hq : qs[j]? with _ | q <;> rw [hq] at h
    · exact Option.noConfusion h
    · rcases ha : as[j]? with _ | a <;> rw [ha] at h
      · exact Option.noConfusion h
      · injection h with hr
        rw [← hr]
        simp [gradeOne]

/-- Witness for C10: two questions, one submission — exactly one
record, paired positionally and numbered 1. -/
theorem grading_total_min_pairing_witness :
    (evaluate_quiz [sampleMCQSession, parisQ] ["A"]).length = 1 ∧
    (evaluate_quiz [sampleMCQSession, parisQ] ["A"])[0]?
      = some (gradeOne 0 sampleMCQSession "A") ∧
    (gradeOne 0 sampleMCQSession "A").question_number = 1 := by
  refine ⟨?_, ?_, ?_⟩
  · simpa using (grading_total_min_pairing [sampleMCQSession, parisQ] ["A"]).1
  · exact (grading_total_min_pairing [sampleMCQSession, parisQ] ["A"]).2.1 0
      sampleMCQSession "A" rfl rfl
  · exact (grading_total_min_pairing [sampleMCQSession, parisQ] ["A"]).2.2 0
      (gradeOne 0 sampleMCQSession "A")
      ((grading_total_min_pairing [sampleMCQSession, parisQ] ["A"]).2.1 0
        sampleMCQSession "A" rfl rfl)

end Quiz
